import Mathlib

/-!
# TodoApp — verification of the request gate and client cache layer

Shallow embedding of the parts of the repository that the specification's
claims are about:

* `src/lib/supabase/middleware.ts` — `updateSession`, the request gate.
* `src/app/api/todos/route.ts` — the `POST`/`GET`/`PATCH`/`DELETE` route
  handlers over the `todos` table (whose column defaults come from the SQL
  migration in `src/unnamed/part_001`).
* `src/app/(dashboard)/todos/page.tsx` — the client handlers
  `fetchTodos`, `handleDelete`, `handleToggleComplete`, `handleSaveEdit`
  that maintain the `todos` React state (the client cache).
-/

namespace TodoApp

/-- Priority level, from the `CHECK (priority IN ('low','medium','high'))`
constraint of the SQL migration and the TS union type in
`database.types.ts`. -/
inductive Priority
  | low
  | medium
  | high
deriving DecidableEq, Repr

/-- A row of the `todos` table (`database.types.ts` `Row`, matching the SQL
DDL: `description` and `due_date` are nullable, everything else `NOT NULL`). -/
structure Todo where
  id : String
  user_id : String
  title : String
  description : Option String
  completed : Bool
  priority : Priority
  due_date : Option String
  created_at : String
  updated_at : String
deriving DecidableEq, Repr

/-! ## Request gate — `updateSession` (`src/lib/supabase/middleware.ts`)

The middleware builds a `NextResponse.next` response, creates a Supabase
client whose `setAll` callback writes any refreshed session cookies onto
both the request and a rebuilt `response` object, calls
`supabase.auth.getUser()`, and then branches on the user and the path.

`supabase.auth.getUser()` resolves with `data.user = null` together with an
error value when the gateway call fails (the supabase client catches network
errors rather than throwing), so both "no session" and "gateway call failed"
reach the branches below as an absent user.  We therefore model the outcome
of STEP 2–3 as a `GatewayResult`: the (possibly absent) validated identity
and the cookies that the `setAll` callback wrote onto the `response`
variable (empty when `setAll` was never invoked). -/

/-- Outcome of `supabase.auth.getUser()` inside the middleware, together
with the refreshed-session cookies the client's `setAll` callback wrote
onto the `response` object (middleware.ts lines 76–91). -/
structure GatewayResult where
  user : Option String
  refreshedCookies : List (String × String)
deriving DecidableEq, Repr

/-- The value `updateSession` returns: either the pass-through
`NextResponse.next` response (allow) or a `NextResponse.redirect` response.
Each response carries the `Set-Cookie` list that is on the returned object:
a freshly constructed `NextResponse.redirect(url)` carries none. -/
inductive Decision
  | next (cookies : List (String × String))
  | redirect (location : String) (cookies : List (String × String))
deriving DecidableEq, Repr

/-- The cookies attached to the response object a decision wraps. -/
def Decision.cookies : Decision → List (String × String)
  | .next cs => cs
  | .redirect _ cs => cs

/-- JavaScript `String.prototype.startsWith(prefix)`, used by the middleware
on `request.nextUrl.pathname`: decides whether the characters of `pre` are
an initial segment of the characters of `s`. -/
def jsStartsWith (s pre : String) : Bool :=
  pre.data.isPrefixOf s.data

/-- `updateSession` (middleware.ts lines 31–153).

* STEP 1–3: `response` is the `NextResponse.next` object; after
  `getUser()` the `setAll` callback has placed `gw.refreshedCookies` on it.
* STEP 4 (lines 122–126): no user and a path starting with `/todos` →
  `return NextResponse.redirect(new URL('/login', request.url))` — a fresh
  response, constructed without the refreshed cookies.
* STEP 5 (lines 136–144): a user and a path starting with `/login` or
  `/register` → `return NextResponse.redirect(new URL('/todos', ...))`,
  again a fresh response without the refreshed cookies.
* STEP 6 (line 152): otherwise return `response`. -/
def updateSession (path : String) (gw : GatewayResult) : Decision :=
  let response := Decision.next gw.refreshedCookies
  if gw.user.isNone && jsStartsWith path "/todos" then
    Decision.redirect "/login" []
  else if gw.user.isSome && (jsStartsWith path "/login" || jsStartsWith path "/register") then
    Decision.redirect "/todos" []
  else
    response

/-! ## API route handlers — `src/app/api/todos/route.ts` -/

/-- Body of a `POST /api/todos` request after the destructuring
`const { title, description, priority, due_date } = body` (route.ts 48):
`none` models an absent (`undefined`) field.  An absent field is omitted
from the insert object, so the corresponding column falls back to its SQL
default. -/
structure InsertBody where
  title : Option String
  description : Option String
  priority : Option Priority
  due_date : Option String
deriving DecidableEq, Repr

/-- JavaScript truthiness guard `!x` on a string-valued field
(route.ts 51, 90 and 137): true when the field is `undefined` or the empty
string. -/
def strFalsy : Option String → Bool
  | none => true
  | some s => s == ""

/-- The row the database stores for
`insert({ user_id, title, description, priority, due_date })`
(route.ts 56–62): the server assigns `id` and both timestamps, and the
column defaults of the SQL migration apply to omitted fields —
`completed BOOLEAN DEFAULT FALSE`, `priority ... DEFAULT 'medium'`, and the
nullable `description`/`due_date` columns default to SQL `NULL`. -/
def insertedRow (uid : String) (b : InsertBody) (newId ts : String) : Todo :=
  { id := newId
    user_id := uid
    title := b.title.getD ""
    description := b.description
    completed := false
    priority := b.priority.getD Priority.medium
    due_date := b.due_date
    created_at := ts
    updated_at := ts }

/-- Result of the `POST` handler: 401, 400, or 201 together with the JSON
body of the 201 response (`none` models a JSON `null` body) and the store
after the request. -/
inductive PostResult
  | unauthorized
  | validationError (msg : String)
  | created (body : Option Todo) (store : List Todo)
deriving DecidableEq, Repr

/-- `POST /api/todos` (route.ts 33–69) against a store of rows.  `user` is
the identity from `supabase.auth.getUser()`; `newId` and `ts` are the id
and timestamp the database assigns to the inserted row.  The insert carries
no `.select()`, so the supabase client does not ask for the created row
back: `data` is `null` and the 201 response body is JSON `null`. -/
def POST (store : List Todo) (user : Option String) (b : InsertBody)
    (newId ts : String) : PostResult :=
  match user with
  | none => PostResult.unauthorized
  | some uid =>
    if strFalsy b.title then PostResult.validationError "Title is required"
    else PostResult.created none (store ++ [insertedRow uid b newId ts])

/-- Insertion into a list kept in descending `created_at` order
(auxiliary for `ORDER BY created_at DESC`). -/
def insertByCreatedAtDesc (t : Todo) : List Todo → List Todo
  | [] => [t]
  | u :: us =>
    if t.created_at ≤ u.created_at then u :: insertByCreatedAtDesc t us
    else t :: u :: us

/-- `ORDER BY created_at DESC` (route.ts 24). -/
def orderByCreatedAtDesc (l : List Todo) : List Todo :=
  l.foldr insertByCreatedAtDesc []

/-- `GET /api/todos` (route.ts 6–31): `none` models the 401 response;
otherwise the rows of the caller, newest first. -/
def GET (store : List Todo) (user : Option String) : Option (List Todo) :=
  match user with
  | none => none
  | some uid => some (orderByCreatedAtDesc (store.filter fun t => t.user_id == uid))

/-- Body of a `PATCH /api/todos` request (route.ts 87).  The outer `Option`
models field presence (`undefined` when absent); for the two nullable
columns the inner `Option` is the JSON value, which may be `null`. -/
structure UpdateBody where
  id : Option String
  title : Option String
  description : Option (Option String)
  priority : Option Priority
  due_date : Option (Option String)
  completed : Option Bool
deriving DecidableEq, Repr

/-- The `updateData` object (route.ts 95–100) applied to a row by the
database update: every field present in the body overwrites its column, and
the `update_todos_updated_at` trigger of the SQL migration stamps
`updated_at`. -/
def applyUpdateData (b : UpdateBody) (now : String) (t : Todo) : Todo :=
  { t with
    title := b.title.getD t.title
    description := b.description.getD t.description
    priority := b.priority.getD t.priority
    due_date := b.due_date.getD t.due_date
    completed := b.completed.getD t.completed
    updated_at := now }

/-- The row filter both `PATCH` and `DELETE` put on their write:
`.eq('id', id).eq('user_id', user.id)` (route.ts 106–107 and 145–146). -/
def matchesTarget (tid uid : String) (t : Todo) : Bool :=
  t.id == tid && t.user_id == uid

/-- Result of the `PATCH` handler: 401, 400, 500 (the `.single()` call
errors unless exactly one row came back), or 200 with the updated row as
body.  The error constructors also record the store after the request. -/
inductive PatchResult
  | unauthorized
  | validationError (msg : String)
  | serverError (store : List Todo)
  | ok (body : Todo) (store : List Todo)
deriving DecidableEq, Repr

/-- `PATCH /api/todos` (route.ts 72–116): 401 without a user, 400 when `id`
is falsy; otherwise the update touches exactly the rows matching both the
id and the user id of the caller, and `.select().single()` yields an error
(a 500 from the handler) unless exactly one row was updated. -/
def PATCH (store : List Todo) (user : Option String) (b : UpdateBody)
    (now : String) : PatchResult :=
  match user with
  | none => PatchResult.unauthorized
  | some uid =>
    if strFalsy b.id then PatchResult.validationError "ID is required"
    else
      let tid := b.id.getD ""
      let updated := store.map fun t =>
        if matchesTarget tid uid t then applyUpdateData b now t else t
      match updated.filter (matchesTarget tid uid) with
      | [row] => PatchResult.ok row updated
      | _ => PatchResult.serverError updated

/-- Result of the `DELETE` handler: 401, 400, or 200 with the store after
the request (deleting zero rows is not an error for the supabase client, so
the handler answers 200 either way). -/
inductive DeleteResult
  | unauthorized
  | validationError (msg : String)
  | ok (store : List Todo)
deriving DecidableEq, Repr

/-- `DELETE /api/todos` (route.ts 119–153): 401 without a user, 400 when
`id` is falsy; the delete removes exactly the rows matching both the id and
the user id of the caller. -/
def DELETE (store : List Todo) (user : Option String) (id : Option String) :
    DeleteResult :=
  match user with
  | none => DeleteResult.unauthorized
  | some uid =>
    if strFalsy id then DeleteResult.validationError "ID is required"
    else DeleteResult.ok (store.filter fun t => !matchesTarget (id.getD "") uid t)

/-! ## Client cache handlers — `src/app/(dashboard)/todos/page.tsx`

The `todos` React state of the `TodoList` component is the client cache.
Each handler is an async function, so three moments of that state are
distinguished: when the handler starts, while the remote call is in flight
(after it was issued, before it settles), and after settlement handling.
`HandlerRun` records the cache at those three moments, whether the handler
surfaced a failure (`alert`), and how many remote calls it issued. -/

/-- How the remote call of a handler settles. -/
inductive Remote
  | success
  | failure
deriving DecidableEq, Repr

/-- Trace of one client mutation or fetch handler run. -/
structure HandlerRun where
  cacheBefore : List Todo
  cacheInFlight : List Todo
  cacheAfter : List Todo
  surfaced : Bool
  remoteCalls : Nat
deriving DecidableEq, Repr

/-- `handleToggleComplete` (page.tsx 458–469): it awaits
`toggleTodoComplete(id, completed)` and only then runs
`setTodos(todos.map(todo => todo.id === id ? { ...todo, completed: !completed } : todo))`;
the catch branch alerts and leaves the state untouched.  In particular no
`setTodos` call happens before the await settles. -/
def handleToggleComplete (todos : List Todo) (id : String) (completed : Bool)
    (r : Remote) : HandlerRun :=
  { cacheBefore := todos
    cacheInFlight := todos
    cacheAfter :=
      match r with
      | Remote.success =>
          todos.map fun t => if t.id == id then { t with completed := !completed } else t
      | Remote.failure => todos
    surfaced := match r with | Remote.success => false | Remote.failure => true
    remoteCalls := 1 }

/-- `handleDelete` (page.tsx 440–456): a declined `confirm` dialog returns
before any remote call; otherwise it awaits `deleteTodo(id)` and only then
runs `setTodos(todos.filter(todo => todo.id !== id))`; the catch branch
alerts and leaves the state untouched. -/
def handleDelete (todos : List Todo) (id : String) (confirmed : Bool)
    (r : Remote) : HandlerRun :=
  if !confirmed then
    { cacheBefore := todos, cacheInFlight := todos, cacheAfter := todos
      surfaced := false, remoteCalls := 0 }
  else
    { cacheBefore := todos
      cacheInFlight := todos
      cacheAfter :=
        match r with
        | Remote.success => todos.filter fun t => t.id != id
        | Remote.failure => todos
      surfaced := match r with | Remote.success => false | Remote.failure => true
      remoteCalls := 1 }

/-- JavaScript `String.prototype.trim()`: strips whitespace from both ends
(used by the guard of `handleSaveEdit`). -/
def jsTrim (s : String) : String :=
  String.mk (((s.data.dropWhile Char.isWhitespace).reverse.dropWhile
    Char.isWhitespace).reverse)

/-- `handleSaveEdit` (page.tsx 491–522): a blank trimmed title alerts and
returns before any remote call; otherwise it awaits the `PATCH` fetch, and
only on an ok response runs
`setTodos(todos.map(todo => todo.id === id ? updatedTodo : todo))` with
`updatedTodo` the row the server returned (`outcome = some updatedTodo`);
a rejected fetch or a non-ok response (`outcome = none`) alerts and leaves
the state untouched. -/
def handleSaveEdit (todos : List Todo) (id : String) (editTitle : String)
    (outcome : Option Todo) : HandlerRun :=
  if jsTrim editTitle == "" then
    { cacheBefore := todos, cacheInFlight := todos, cacheAfter := todos
      surfaced := true, remoteCalls := 0 }
  else
    { cacheBefore := todos
      cacheInFlight := todos
      cacheAfter :=
        match outcome with
        | some updatedTodo => todos.map fun t => if t.id == id then updatedTodo else t
        | none => todos
      surfaced := outcome.isNone
      remoteCalls := 1 }

/-- One settled fetch inside `fetchTodos` (page.tsx 428–438): the handler
stores the response as the whole cache — `setTodos(response)` — without any
check that a newer fetch already wrote. -/
def setTodosOnArrival (_cache response : List Todo) : List Todo :=
  response

/-- The cache after a sequence of fetch responses settle, applied in
arrival order. -/
def finalCacheAfterArrivals (c0 : List Todo) (arrivals : List (List Todo)) :
    List Todo :=
  arrivals.foldl setTodosOnArrival c0

/-- A sample row used by the concrete counterexamples below. -/
def rowA : Todo :=
  { id := "a", user_id := "u", title := "Task A", description := none
    completed := false, priority := Priority.medium, due_date := none
    created_at := "2025-01-01", updated_at := "2025-01-01" }

/-- A second sample row, distinct from `rowA`. -/
def rowB : Todo :=
  { id := "b", user_id := "u", title := "Task B", description := none
    completed := false, priority := Priority.low, due_date := none
    created_at := "2025-01-02", updated_at := "2025-01-02" }

/-! ## Shared list lemmas -/

/-- A guarded map is the identity on a list none of whose elements satisfy
the guard. -/
theorem list_map_guard_eq_self {α : Type} {p : α → Bool} {f : α → α}
    (l : List α) (h : ∀ t ∈ l, p t = false) :
    (l.map fun t => if p t then f t else t) = l := by
  induction l with
  | nil => rfl
  | cons a as ih =>
    have ha := h a (List.mem_cons_self a as)
    have has : ∀ t ∈ as, p t = false := fun t ht => h t (List.mem_cons_of_mem a ht)
    simp [ha, ih has]

/-- Filtering by a guard no element satisfies yields the empty list. -/
theorem list_filter_guard_eq_nil {α : Type} {p : α → Bool}
    (l : List α) (h : ∀ t ∈ l, p t = false) :
    l.filter p = [] := by
  induction l with
  | nil => rfl
  | cons a as ih =>
    have ha := h a (List.mem_cons_self a as)
    have has : ∀ t ∈ as, p t = false := fun t ht => h t (List.mem_cons_of_mem a ht)
    simp [List.filter_cons, ha, ih has]

/-- Filtering by the negation of a guard no element satisfies keeps the
whole list. -/
theorem list_filter_not_guard_eq_self {α : Type} {p : α → Bool}
    (l : List α) (h : ∀ t ∈ l, p t = false) :
    (l.filter fun t => !p t) = l := by
  induction l with
  | nil => rfl
  | cons a as ih =>
    have ha := h a (List.mem_cons_self a as)
    have has : ∀ t ∈ as, p t = false := fun t ht => h t (List.mem_cons_of_mem a ht)
    simp [List.filter_cons, ha, ih has]

end TodoApp

namespace TodoApp

/-- C2: For every request whose target path starts with `/todos` and whose
session validation yields no identity — a failed gateway call included,
since it also surfaces as an absent user — `updateSession` returns the
redirect to `/login` and never the allow decision. -/
theorem gate_protected_unauthenticated_redirects_login
    (path : String) (gw : GatewayResult)
    (hu : gw.user = none) (hp : jsStartsWith path "/todos" = true) :
    updateSession path gw = Decision.redirect "/login" [] ∧
      ∀ cs, updateSession path gw ≠ Decision.next cs := by
  constructor
  · simp [updateSession, hu, hp]
  · intro cs
    simp [updateSession, hu, hp]

/-- C2 witness: the unauthenticated request to `/todos` itself. -/
theorem gate_protected_unauthenticated_redirects_login_witness :
    updateSession "/todos" { user := none, refreshedCookies := [] } =
      Decision.redirect "/login" [] :=
  (gate_protected_unauthenticated_redirects_login "/todos"
    { user := none, refreshedCookies := [] } rfl (by decide)).1

/-- C9: For every request whose session validation yields an identity and
whose target path starts with `/login` or `/register`, `updateSession`
returns the redirect to `/todos` and never the allow decision. -/
theorem gate_authenticated_public_only_redirects_home
    (path : String) (gw : GatewayResult) (u : String)
    (hu : gw.user = some u)
    (hp : (jsStartsWith path "/login" || jsStartsWith path "/register") = true) :
    updateSession path gw = Decision.redirect "/todos" [] ∧
      ∀ cs, updateSession path gw ≠ Decision.next cs := by
  constructor
  · simp [updateSession, hu, hp]
  · intro cs
    simp [updateSession, hu, hp]

/-- C9 witness: an authenticated request to `/login`. -/
theorem gate_authenticated_public_only_redirects_home_witness :
    updateSession "/login" { user := some "user-1", refreshedCookies := [] } =
      Decision.redirect "/todos" [] :=
  (gate_authenticated_public_only_redirects_home "/login"
    { user := some "user-1", refreshedCookies := [] } "user-1" rfl (by decide)).1

/-- C1: the claim fails on the code.  When session validation refreshes the
credential (here the cookie `sb-token ↦ new`) during an authenticated
request to `/login`, `updateSession` returns a freshly constructed redirect
response carrying no cookies at all: the refreshed credential written by
`setAll` onto the pass-through response is dropped on both redirect
outcomes, while the allow outcome does carry it. -/
theorem gate_redirect_drops_refreshed_cookies :
    (updateSession "/login"
        { user := some "user-1", refreshedCookies := [("sb-token", "new")] }).cookies
      = [] ∧
    (updateSession "/other"
        { user := some "user-1", refreshedCookies := [("sb-token", "new")] }).cookies
      = [("sb-token", "new")] := by
  constructor
  · decide
  · decide

/-- C3 counterexample: the claim fails on the code.  Toggling `rowA`
(completed `false`) leaves the cache while the remote call is in flight
exactly as it was — the toggled field is *not* applied before the call
settles, although the claim says it is. -/
theorem toggle_not_applied_before_settlement :
    (handleToggleComplete [rowA] "a" false Remote.success).cacheInFlight = [rowA] ∧
      rowA.completed = false ∧
      [rowA] ≠ [{ rowA with completed := true }] := by
  refine ⟨rfl, rfl, ?_⟩
  decide

/-- C3 amended: for every Update mutation (toggle-completed and the full
save-edit path alike) the cache is left untouched while the remote call is
in flight, and the partial fields are applied to the matching task only
after the remote call succeeds; no unconfirmed-state marker exists. -/
theorem cache_updated_only_after_success
    (todos : List Todo) (id : String) (c : Bool) (r : Remote)
    (title : String) (outcome : Option Todo) :
    (handleToggleComplete todos id c r).cacheInFlight = todos ∧
      (handleToggleComplete todos id c Remote.success).cacheAfter
        = (todos.map fun t => if t.id == id then { t with completed := !c } else t) ∧
      (handleSaveEdit todos id title outcome).cacheInFlight = todos := by
  refine ⟨rfl, rfl, ?_⟩
  simp only [handleSaveEdit]
  split <;> rfl

/-- C4: every Update (toggle-completed and save-edit) or Delete mutation
whose remote call fails leaves the cache structurally equal to the cache
when the mutation began, surfaces the failure with an alert, and issues at
most the one original remote call (no automatic retry). -/
theorem failed_mutation_rolls_back_and_does_not_retry
    (todos : List Todo) (id : String) (c : Bool) (title : String) :
    ((handleToggleComplete todos id c Remote.failure).cacheAfter
        = (handleToggleComplete todos id c Remote.failure).cacheBefore ∧
      (handleToggleComplete todos id c Remote.failure).surfaced = true ∧
      (handleToggleComplete todos id c Remote.failure).remoteCalls = 1) ∧
    ((handleDelete todos id true Remote.failure).cacheAfter
        = (handleDelete todos id true Remote.failure).cacheBefore ∧
      (handleDelete todos id true Remote.failure).surfaced = true ∧
      (handleDelete todos id true Remote.failure).remoteCalls = 1) ∧
    ((handleSaveEdit todos id title none).cacheAfter
        = (handleSaveEdit todos id title none).cacheBefore ∧
      (handleSaveEdit todos id title none).surfaced = true ∧
      (handleSaveEdit todos id title none).remoteCalls ≤ 1) := by
  refine ⟨⟨rfl, rfl, rfl⟩, ⟨rfl, rfl, rfl⟩, ?_, ?_, ?_⟩ <;>
    · simp only [handleSaveEdit]
      split <;> simp

/-- C5: the claim fails on the code.  A successful authenticated create
with a valid title does insert the row into the store, but the insert
carries no `.select()`, so the 201 response body is JSON `null` — the
created `Task` record (with the server-assigned id and timestamps) is not
returned to the caller, although the README documents it in the response
and the spec requires `createTask(partial) -> Task`. -/
theorem post_returns_null_body_not_created_row :
    POST [] (some "user-1")
        { title := some "Buy milk", description := none
          priority := none, due_date := none } "id-1" "2025-01-01T00:00:00Z"
      = PostResult.created none
          [{ id := "id-1", user_id := "user-1", title := "Buy milk"
             description := none, completed := false, priority := Priority.medium
             due_date := none, created_at := "2025-01-01T00:00:00Z"
             updated_at := "2025-01-01T00:00:00Z" }] := by
  decide

/-- C6: for an authenticated user with an empty task list, a successful
create with input `{title := "Buy milk"}` and no other fields stores a row
whose omitted fields got the defaults, the subsequent `GET` returns exactly
that one row, and `fetchTodos` makes it the whole cache: one task titled
`Buy milk` with `completed = false` and `priority = medium`. -/
theorem create_buy_milk_yields_single_default_task (uid newId ts : String) :
    POST [] (some uid)
        { title := some "Buy milk", description := none
          priority := none, due_date := none } newId ts
      = PostResult.created none
          [{ id := newId, user_id := uid, title := "Buy milk"
             description := none, completed := false, priority := Priority.medium
             due_date := none, created_at := ts, updated_at := ts }] ∧
    GET [{ id := newId, user_id := uid, title := "Buy milk"
           description := none, completed := false, priority := Priority.medium
           due_date := none, created_at := ts, updated_at := ts }] (some uid)
      = some [{ id := newId, user_id := uid, title := "Buy milk"
                description := none, completed := false, priority := Priority.medium
                due_date := none, created_at := ts, updated_at := ts }] ∧
    setTodosOnArrival []
        [{ id := newId, user_id := uid, title := "Buy milk"
           description := none, completed := false, priority := Priority.medium
           due_date := none, created_at := ts, updated_at := ts }]
      = [{ id := newId, user_id := uid, title := "Buy milk"
           description := none, completed := false, priority := Priority.medium
           due_date := none, created_at := ts, updated_at := ts }] := by
  refine ⟨rfl, ?_, rfl⟩
  simp [GET, orderByCreatedAtDesc, insertByCreatedAtDesc]

/-- C7 counterexample: the claim fails on the code.  Issue two fetches for
the key; the second one answers `[rowB]` and arrives first, the first
(slow) one answers `[rowA]` and arrives after it.  `fetchTodos` has no
response-ordering check, so the final cache is the stale `[rowA]`, not the
newer `[rowB]`. -/
theorem stale_response_overwrites_newer :
    finalCacheAfterArrivals [] [[rowB], [rowA]] = [rowA] ∧
      ([rowA] : List Todo) ≠ [rowB] := by
  refine ⟨rfl, ?_⟩
  decide

/-- C7 amended: the final cached data equals whichever response arrives
last, regardless of the order the fetches were issued in — so a stale
response that arrives after a newer one does overwrite it. -/
theorem final_cache_equals_last_arrival
    (c0 r : List Todo) (arrivals : List (List Todo)) :
    finalCacheAfterArrivals c0 (arrivals ++ [r]) = r := by
  induction arrivals generalizing c0 with
  | nil => rfl
  | cons a as ih => exact ih a

/-- C8 counterexample: the claim fails on the code.  A title of 101
characters is not rejected by the route guard — the create proceeds and the
row reaches the data store, although the claim says titles longer than 100
characters fail validation before reaching the store (that bound lives only
in the client-side zod `TodoSchema`, which the route never invokes). -/
theorem long_title_passes_route_validation :
    (String.mk (List.replicate 101 'x')).length = 101 ∧
    POST [] (some "user-1")
        { title := some (String.mk (List.replicate 101 'x')), description := none
          priority := none, due_date := none } "id-1" "ts-1"
      = PostResult.created none
          [insertedRow "user-1"
            { title := some (String.mk (List.replicate 101 'x')), description := none
              priority := none, due_date := none } "id-1" "ts-1"] := by
  constructor
  · decide
  · decide

/-- C8 amended: the authenticated create fails with the validation error,
without reaching the data store, exactly when the title is absent or the
empty string; every other title — those of length 1 to 100 included, but
longer ones as well — proceeds and the row is stored. -/
theorem post_validation_rejects_exactly_falsy_title
    (store : List Todo) (uid : String) (b : InsertBody) (newId ts : String) :
    (POST store (some uid) b newId ts = PostResult.validationError "Title is required"
        ↔ (b.title = none ∨ b.title = some "")) ∧
    (POST store (some uid) b newId ts
          = PostResult.created none (store ++ [insertedRow uid b newId ts])
        ↔ ¬(b.title = none ∨ b.title = some "")) := by
  rcases hb : b.title with _ | s
  · simp [POST, strFalsy, hb]
  · by_cases hs : s = "" <;> simp [POST, strFalsy, hb, hs]

/-- C10: when no row of the store both carries the targeted id and belongs
to the caller, `PATCH` updates nothing (the `.single()` call then errors,
so the handler answers 500) and `DELETE` removes nothing: both write paths
filter on the task id *and* the authenticated user id, so a task owned by
another user is left untouched. -/
theorem foreign_task_left_unchanged
    (store : List Todo) (uid tid : String) (b : UpdateBody) (now : String)
    (hid : b.id = some tid) (hne : tid ≠ "")
    (h : ∀ t ∈ store, t.id = tid → t.user_id ≠ uid) :
    PATCH store (some uid) b now = PatchResult.serverError store ∧
      DELETE store (some uid) (some tid) = DeleteResult.ok store := by
  have hm : ∀ t ∈ store, matchesTarget tid uid t = false := by
    intro t ht
    by_cases h1 : t.id = tid
    · simp [matchesTarget, h1, h t ht h1]
    · simp [matchesTarget, h1]
  have hfalsy : strFalsy (some tid) = false := by
    simp [strFalsy, hne]
  constructor
  · simp only [PATCH, hid, hfalsy, Bool.false_eq_true, if_false, Option.getD_some]
    rw [list_map_guard_eq_self store hm, list_filter_guard_eq_nil store hm]
  · simp only [DELETE, hfalsy, Bool.false_eq_true, if_false, Option.getD_some]
    rw [list_filter_not_guard_eq_self store hm]

/-- C10 witness: the caller `attacker` issues a `PATCH` rewriting the title
of the row `a`, owned by user `u`, and a `DELETE` of the same row; the
store keeps the row unchanged both times. -/
theorem foreign_task_left_unchanged_witness :
    PATCH [rowA] (some "attacker")
        { id := some "a", title := some "hacked", description := none
          priority := none, due_date := none, completed := none } "now-1"
      = PatchResult.serverError [rowA] ∧
      DELETE [rowA] (some "attacker") (some "a") = DeleteResult.ok [rowA] :=
  foreign_task_left_unchanged [rowA] "attacker" "a"
    { id := some "a", title := some "hacked", description := none
      priority := none, due_date := none, completed := none } "now-1"
    rfl (by decide) (by decide)

end TodoApp
